import Mathlib

/-
Shallow embedding of the process-sync-rs library (src/util.rs, src/shared_memory.rs,
src/mutex.rs, src/condvar.rs).

The library is a thin wrapper around OS calls (mmap/munmap and the pthread
process-shared mutex/condvar family).  Each OS call is modelled by passing its
return value (and, where the code reads it, the value of last_os_error, i.e.
errno) as an explicit oracle argument to the embedded function.  Effects on the
OS are recorded as a trace of OSCall values; a Rust panic/abort (from .expect
during cleanup) is recorded as an `aborted` flag or an `aborted` outcome
constructor.  Raw pointers into a mapping are abstracted by the pair
(mapping identity/length, current pointee value), the standard state
abstraction for a well-formed *mut T into an owned mapping.
-/

/-- OS error number, the value of std::io::Error::last_os_error() abstracted
to its raw code (the spec requires errors to carry the raw OS error). -/
abbrev Errno := Int

/-- Embedding of util.rs check_libc_err:
`fn check_libc_err<T: Default + Ord>(ret: T) -> std::io::Result<T>`:
returns Err(last_os_error) when `ret < T::default()`, else Ok(ret).
The Default instance is passed as the explicit `default` argument and the
ambient errno as `lastError`. -/
def check_libc_err {T : Type} [LinearOrder T] (default : T) (lastError : Errno)
    (ret : T) : Except Errno T :=
  if ret < default then Except.error lastError else Except.ok ret

/-- OS-visible effects emitted by the library, as trace events. -/
inductive OSCall where
  | mmapShared (len : Nat)
  | munmapCall (len : Nat)
  | pthreadMutexDestroy
  | pthreadCondDestroy
  /-- running the payload type T drop logic inside the region (the code
  never emits this: SharedMemoryObject::drop only unmaps). -/
  | payloadDrop
  deriving DecidableEq, Repr

/-- Identity of an OS-level anonymous shared mapping: its requested length in
bytes (the `len` argument the code passes to mmap). -/
structure Mapping where
  len : Nat
  deriving DecidableEq, Repr

/-- Outcome of the mmap syscall, as an oracle: either it succeeds or it is
rejected with MAP_FAILED and an errno. -/
inductive MmapOutcome where
  | success
  | failed (errno : Errno)
  deriving DecidableEq, Repr

/-- Embedding of shared_memory.rs allocate_shared_memory: calls
mmap(null, len, PROT_READ|PROT_WRITE, MAP_SHARED|MAP_ANONYMOUS, -1, 0);
if the result is MAP_FAILED returns Err(last_os_error), else Ok(addr).
The returned address is abstracted to the mapping it denotes. -/
def allocate_shared_memory (mm : MmapOutcome) (len : Nat) : Except Errno Mapping :=
  match mm with
  | MmapOutcome.failed e => Except.error e
  | MmapOutcome.success => Except.ok ⟨len⟩

/-- Embedding of shared_memory.rs free_shared_memory: calls munmap(addr, len)
and returns Err(last_os_error) iff the return value is nonzero.  The trace
records the munmap call that was made. -/
def free_shared_memory (lastError : Errno) (munmapRet : Int) (len : Nat) :
    List OSCall × Except Errno Unit :=
  ([OSCall.munmapCall len],
    if munmapRet ≠ 0 then Except.error lastError else Except.ok ())

/-- Embedding of shared_memory.rs `struct SharedMemoryObject<T> { ptr: *mut T }`.
The raw pointer is abstracted by the mapping it points into together with the
pointee value as seen by this process. -/
structure SharedMemoryObject (T : Type) where
  mapping : Mapping
  value : T
  deriving DecidableEq, Repr

/-- Embedding of SharedMemoryObject::new(obj): allocates
size_of::\x3cT\x3e() bytes of shared memory (sizeOfT is that size, passed
explicitly), then writes obj through the returned pointer.  Propagates the
allocation error, otherwise returns the handle. -/
def SharedMemoryObject.new {T : Type} (sizeOfT : Nat) (mm : MmapOutcome)
    (obj : T) : Except Errno (SharedMemoryObject T) :=
  match allocate_shared_memory mm sizeOfT with
  | Except.error e => Except.error e
  | Except.ok m => Except.ok ⟨m, obj⟩

/-- Embedding of SharedMemoryObject::get: dereferences the pointer and
returns the stored value.  The body is a plain dereference: no OS call, no
failure path. -/
def SharedMemoryObject.get {T : Type} (o : SharedMemoryObject T) : T :=
  o.value

/-- Embedding of SharedMemoryObject::get_mut: a mutable reference, modelled
as the current value together with the update function the reference gives
write access to.  The body is a plain dereference: no OS call, no failure
path. -/
def SharedMemoryObject.get_mut {T : Type} (o : SharedMemoryObject T) :
    T × (T → SharedMemoryObject T) :=
  (o.value, fun v => ⟨o.mapping, v⟩)

/-- Result of running a Drop implementation (plus the compiler-generated
field drops): the trace of OS calls made, and whether the process aborted
(a panic from .expect inside a destructor). -/
structure DropOutcome where
  calls : List OSCall
  aborted : Bool
  deriving DecidableEq, Repr

/-- Embedding of `impl<T> Drop for SharedMemoryObject<T>`: calls
free_shared_memory(ptr, size_of::\x3cT\x3e()) and .expect()s the result, so a
nonzero munmap return aborts the process. -/
def SharedMemoryObject.dropGlue {T : Type} (lastError : Errno) (munmapRet : Int)
    (o : SharedMemoryObject T) : DropOutcome :=
  let r := free_shared_memory lastError munmapRet o.mapping.len
  { calls := r.1,
    aborted := match r.2 with
      | Except.error _ => true
      | Except.ok _ => false }

/-- The opaque OS lock structure pthread_mutex_t. -/
inductive PthreadMutexT where
  | mk
  deriving DecidableEq, Repr

/-- The opaque OS wait/notify structure pthread_cond_t. -/
inductive PthreadCondT where
  | mk
  deriving DecidableEq, Repr

/-- libc::PTHREAD_MUTEX_INITIALIZER, the initial byte pattern written into
the shared region by SharedMutex::new. -/
def PTHREAD_MUTEX_INITIALIZER : PthreadMutexT := PthreadMutexT.mk

/-- libc::PTHREAD_COND_INITIALIZER, the initial byte pattern written into
the shared region by SharedCondvar::new. -/
def PTHREAD_COND_INITIALIZER : PthreadCondT := PthreadCondT.mk

/-- Embedding of mutex.rs `struct SharedMutex { mutex, owner_pid }`. -/
structure SharedMutex where
  mutex : SharedMemoryObject PthreadMutexT
  owner_pid : Int
  deriving DecidableEq, Repr

/-- Embedding of condvar.rs `struct SharedCondvar { condvar, owner_pid }`. -/
structure SharedCondvar where
  condvar : SharedMemoryObject PthreadCondT
  owner_pid : Int
  deriving DecidableEq, Repr

/-- Embedding of SharedMutex::lock: check_libc_err(pthread_mutex_lock(..))?
then Ok(()).  pthreadRet is the return value of the pthread_mutex_lock call,
lastError the ambient errno. -/
def SharedMutex.lock (_m : SharedMutex) (lastError : Errno) (pthreadRet : Int) :
    Except Errno Unit :=
  match check_libc_err 0 lastError pthreadRet with
  | Except.error e => Except.error e
  | Except.ok _ => Except.ok ()

/-- Embedding of SharedMutex::unlock: check_libc_err(pthread_mutex_unlock(..))?
then Ok(()). -/
def SharedMutex.unlock (_m : SharedMutex) (lastError : Errno) (pthreadRet : Int) :
    Except Errno Unit :=
  match check_libc_err 0 lastError pthreadRet with
  | Except.error e => Except.error e
  | Except.ok _ => Except.ok ()

/-- Embedding of SharedCondvar::wait: check_libc_err(pthread_cond_wait(..))?
then Ok(()). -/
def SharedCondvar.wait (_c : SharedCondvar) (_m : SharedMutex)
    (lastError : Errno) (pthreadRet : Int) : Except Errno Unit :=
  match check_libc_err 0 lastError pthreadRet with
  | Except.error e => Except.error e
  | Except.ok _ => Except.ok ()

/-- Embedding of SharedCondvar::notify_one: check_libc_err(pthread_cond_signal(..))?
then Ok(()). -/
def SharedCondvar.notify_one (_c : SharedCondvar) (lastError : Errno)
    (pthreadRet : Int) : Except Errno Unit :=
  match check_libc_err 0 lastError pthreadRet with
  | Except.error e => Except.error e
  | Except.ok _ => Except.ok ()

/-- Embedding of SharedCondvar::notify_all: check_libc_err(pthread_cond_broadcast(..))?
then Ok(()). -/
def SharedCondvar.notify_all (_c : SharedCondvar) (lastError : Errno)
    (pthreadRet : Int) : Except Errno Unit :=
  match check_libc_err 0 lastError pthreadRet with
  | Except.error e => Except.error e
  | Except.ok _ => Except.ok ()

/-- Embedding of the body of `impl Drop for SharedMutex`: if getpid() equals
owner_pid it calls pthread_mutex_destroy and .expect()s the checked result
(abort when check_libc_err reports an error); otherwise it does nothing.
Returns (trace of OS calls, aborted flag). -/
def SharedMutex.dropBody (currentPid : Int) (lastError : Errno)
    (destroyRet : Int) (m : SharedMutex) : List OSCall × Bool :=
  if currentPid = m.owner_pid then
    ([OSCall.pthreadMutexDestroy],
      match check_libc_err 0 lastError destroyRet with
      | Except.error _ => true
      | Except.ok _ => false)
  else ([], false)

/-- Scope exit of a SharedMutex handle: Rust runs Drop::drop, then drops
the fields, here the inner SharedMemoryObject (its munmap).  A panic inside
Drop::drop is modelled as immediate abort. -/
def SharedMutex.dropGlue (currentPid : Int) (lastError : Errno)
    (destroyRet : Int) (munmapLastError : Errno) (munmapRet : Int)
    (m : SharedMutex) : DropOutcome :=
  let b := SharedMutex.dropBody currentPid lastError destroyRet m
  if b.2 then ⟨b.1, true⟩
  else
    let inner := SharedMemoryObject.dropGlue munmapLastError munmapRet m.mutex
    ⟨b.1 ++ inner.calls, inner.aborted⟩

/-- Embedding of the body of `impl Drop for SharedCondvar`: if getpid() equals
owner_pid it calls pthread_cond_destroy and .expect()s the checked result;
otherwise it does nothing. -/
def SharedCondvar.dropBody (currentPid : Int) (lastError : Errno)
    (destroyRet : Int) (c : SharedCondvar) : List OSCall × Bool :=
  if currentPid = c.owner_pid then
    ([OSCall.pthreadCondDestroy],
      match check_libc_err 0 lastError destroyRet with
      | Except.error _ => true
      | Except.ok _ => false)
  else ([], false)

/-- Scope exit of a SharedCondvar handle: Drop::drop, then the field drop of
the inner SharedMemoryObject. -/
def SharedCondvar.dropGlue (currentPid : Int) (lastError : Errno)
    (destroyRet : Int) (munmapLastError : Errno) (munmapRet : Int)
    (c : SharedCondvar) : DropOutcome :=
  let b := SharedCondvar.dropBody currentPid lastError destroyRet c
  if b.2 then ⟨b.1, true⟩
  else
    let inner := SharedMemoryObject.dropGlue munmapLastError munmapRet c.condvar
    ⟨b.1 ++ inner.calls, inner.aborted⟩

/-- Oracle for the four OS calls made by initialize_mutex / initialize_condvar,
in program order: attr init, attr setpshared, structure init, attr destroy.
Each call has a return value and the errno that last_os_error would read
right after it. -/
structure InitCalls where
  attrInitRet : Int
  attrInitErrno : Errno
  setpsharedRet : Int
  setpsharedErrno : Errno
  structInitRet : Int
  structInitErrno : Errno
  attrDestroyRet : Int
  attrDestroyErrno : Errno
  deriving DecidableEq, Repr

/-- How a call that can panic ends: a normal value, a returned Err, or a
process abort via .expect/panic with its message. -/
inductive InitOutcome where
  | ok
  | err (e : Errno)
  | aborted (msg : String)
  deriving DecidableEq, Repr

/-- Embedding of mutex.rs destroy_mutexattr: check_libc_err(pthread_mutexattr_destroy(..))?
then Ok(()). -/
def destroy_mutexattr (lastError : Errno) (ret : Int) : Except Errno Unit :=
  match check_libc_err 0 lastError ret with
  | Except.error e => Except.error e
  | Except.ok _ => Except.ok ()

/-- Embedding of condvar.rs destroy_condattr: check_libc_err(pthread_condattr_destroy(..))?
then Ok(()). -/
def destroy_condattr (lastError : Errno) (ret : Int) : Except Errno Unit :=
  match check_libc_err 0 lastError ret with
  | Except.error e => Except.error e
  | Except.ok _ => Except.ok ()

/-- Embedding of mutex.rs initialize_mutex:
check_libc_err(pthread_mutexattr_init)? ;
check_libc_err(pthread_mutexattr_setpshared).expect("cannot set PTHREAD_PROCESS_SHARED") ;
ret = check_libc_err(pthread_mutex_init) ;
destroy_mutexattr(attr).expect("cannot destroy mutexattr") ;
ret.map(drop). -/
def initialize_mutex (c : InitCalls) : InitOutcome :=
  match check_libc_err 0 c.attrInitErrno c.attrInitRet with
  | Except.error e => InitOutcome.err e
  | Except.ok _ =>
    match check_libc_err 0 c.setpsharedErrno c.setpsharedRet with
    | Except.error _ => InitOutcome.aborted "cannot set PTHREAD_PROCESS_SHARED"
    | Except.ok _ =>
      let ret := check_libc_err 0 c.structInitErrno c.structInitRet
      match destroy_mutexattr c.attrDestroyErrno c.attrDestroyRet with
      | Except.error _ => InitOutcome.aborted "cannot destroy mutexattr"
      | Except.ok _ =>
        match ret with
        | Except.error e => InitOutcome.err e
        | Except.ok _ => InitOutcome.ok

/-- Embedding of condvar.rs initialize_condvar, same shape as
initialize_mutex over pthread_condattr_init / pthread_condattr_setpshared /
pthread_cond_init / destroy_condattr. -/
def initialize_condvar (c : InitCalls) : InitOutcome :=
  match check_libc_err 0 c.attrInitErrno c.attrInitRet with
  | Except.error e => InitOutcome.err e
  | Except.ok _ =>
    match check_libc_err 0 c.setpsharedErrno c.setpsharedRet with
    | Except.error _ => InitOutcome.aborted "cannot set PTHREAD_PROCESS_SHARED"
    | Except.ok _ =>
      let ret := check_libc_err 0 c.structInitErrno c.structInitRet
      match destroy_condattr c.attrDestroyErrno c.attrDestroyRet with
      | Except.error _ => InitOutcome.aborted "cannot destroy condattr"
      | Except.ok _ =>
        match ret with
        | Except.error e => InitOutcome.err e
        | Except.ok _ => InitOutcome.ok

/-- Outcome of a constructor that can return a handle, return Err, or abort
the process via a panic. -/
inductive NewOutcome (A : Type) where
  | ok (a : A)
  | err (e : Errno)
  | aborted (msg : String)
  deriving DecidableEq, Repr

/-- Byte size of pthread_mutex_t on the targeted POSIX platform, the value
size_of::\x3cpthread_mutex_t\x3e() passed to mmap by SharedMemoryObject::new. -/
def sizeof_pthread_mutex_t : Nat := 40

/-- Byte size of pthread_cond_t on the targeted POSIX platform. -/
def sizeof_pthread_cond_t : Nat := 48

/-- Embedding of SharedMutex::new:
SharedMemoryObject::new(PTHREAD_MUTEX_INITIALIZER)? ;
initialize_mutex(mutex.get_mut())? ;
owner_pid = getpid() ; Ok(Self).
currentPid is the value getpid() returns (getpid cannot fail). -/
def SharedMutex.new (mm : MmapOutcome) (ic : InitCalls) (currentPid : Int) :
    NewOutcome SharedMutex :=
  match SharedMemoryObject.new sizeof_pthread_mutex_t mm PTHREAD_MUTEX_INITIALIZER with
  | Except.error e => NewOutcome.err e
  | Except.ok obj =>
    match initialize_mutex ic with
    | InitOutcome.err e => NewOutcome.err e
    | InitOutcome.aborted msg => NewOutcome.aborted msg
    | InitOutcome.ok => NewOutcome.ok ⟨obj, currentPid⟩

/-- Embedding of SharedCondvar::new, same shape as SharedMutex::new over
PTHREAD_COND_INITIALIZER and initialize_condvar. -/
def SharedCondvar.new (mm : MmapOutcome) (ic : InitCalls) (currentPid : Int) :
    NewOutcome SharedCondvar :=
  match SharedMemoryObject.new sizeof_pthread_cond_t mm PTHREAD_COND_INITIALIZER with
  | Except.error e => NewOutcome.err e
  | Except.ok obj =>
    match initialize_condvar ic with
    | InitOutcome.err e => NewOutcome.err e
    | InitOutcome.aborted msg => NewOutcome.aborted msg
    | InitOutcome.ok => NewOutcome.ok ⟨obj, currentPid⟩

/-- Characterization of the OS-call trace of a SharedMutex scope exit. -/
theorem mutex_dropGlue_calls (pid : Int) (eD : Errno) (dR : Int)
    (eM : Errno) (mR : Int) (m : SharedMutex) :
    (SharedMutex.dropGlue pid eD dR eM mR m).calls =
      if pid = m.owner_pid then
        (if dR < 0 then [OSCall.pthreadMutexDestroy]
         else [OSCall.pthreadMutexDestroy, OSCall.munmapCall m.mutex.mapping.len])
      else [OSCall.munmapCall m.mutex.mapping.len] := by
  unfold SharedMutex.dropGlue SharedMutex.dropBody SharedMemoryObject.dropGlue
    free_shared_memory check_libc_err
  by_cases h : pid = m.owner_pid <;> by_cases hd : dR < 0 <;> simp [h, hd]

/-- Characterization of the OS-call trace of a SharedCondvar scope exit. -/
theorem condvar_dropGlue_calls (pid : Int) (eD : Errno) (dR : Int)
    (eM : Errno) (mR : Int) (c : SharedCondvar) :
    (SharedCondvar.dropGlue pid eD dR eM mR c).calls =
      if pid = c.owner_pid then
        (if dR < 0 then [OSCall.pthreadCondDestroy]
         else [OSCall.pthreadCondDestroy, OSCall.munmapCall c.condvar.mapping.len])
      else [OSCall.munmapCall c.condvar.mapping.len] := by
  unfold SharedCondvar.dropGlue SharedCondvar.dropBody SharedMemoryObject.dropGlue
    free_shared_memory check_libc_err
  by_cases h : pid = c.owner_pid <;> by_cases hd : dR < 0 <;> simp [h, hd]

/-- C1: for every SharedMutex and SharedCondvar handle, scope exit invokes the
OS-level destroy call on the shared structure if and only if the pid of the
process running the Drop equals the owner pid recorded at construction; in a
non-creator process the trace is exactly the munmap of the local view, so the
shared structure is left untouched. -/
theorem spec_C1 (pid : Int) (eD : Errno) (dR : Int) (eM : Errno) (mR : Int)
    (m : SharedMutex) (c : SharedCondvar) :
    (OSCall.pthreadMutexDestroy ∈ (SharedMutex.dropGlue pid eD dR eM mR m).calls
      ↔ pid = m.owner_pid)
    ∧ (pid ≠ m.owner_pid →
        (SharedMutex.dropGlue pid eD dR eM mR m).calls
          = [OSCall.munmapCall m.mutex.mapping.len])
    ∧ (OSCall.pthreadCondDestroy ∈ (SharedCondvar.dropGlue pid eD dR eM mR c).calls
      ↔ pid = c.owner_pid)
    ∧ (pid ≠ c.owner_pid →
        (SharedCondvar.dropGlue pid eD dR eM mR c).calls
          = [OSCall.munmapCall c.condvar.mapping.len]) := by
  rw [mutex_dropGlue_calls, condvar_dropGlue_calls]
  refine ⟨?_, ?_, ?_, ?_⟩
  · by_cases h : pid = m.owner_pid <;> by_cases hd : dR < 0 <;> simp [h, hd]
  · intro h; simp [h]
  · by_cases h : pid = c.owner_pid <;> by_cases hd : dR < 0 <;> simp [h, hd]
  · intro h; simp [h]

/-- Witness for C1 at concrete inputs: in a process with pid 2 that is not the
creator (owner pid 1), scope exit of a mutex and of a condvar emits only the
local munmap. -/
theorem spec_C1_witness :
    (SharedMutex.dropGlue 2 0 0 0 0 ⟨⟨⟨40⟩, PthreadMutexT.mk⟩, 1⟩).calls
      = [OSCall.munmapCall 40]
    ∧ (SharedCondvar.dropGlue 2 0 0 0 0 ⟨⟨⟨48⟩, PthreadCondT.mk⟩, 1⟩).calls
      = [OSCall.munmapCall 48] :=
  ⟨(spec_C1 2 0 0 0 0 ⟨⟨⟨40⟩, PthreadMutexT.mk⟩, 1⟩
      ⟨⟨⟨48⟩, PthreadCondT.mk⟩, 1⟩).2.1 (by decide),
   (spec_C1 2 0 0 0 0 ⟨⟨⟨40⟩, PthreadMutexT.mk⟩, 1⟩
      ⟨⟨⟨48⟩, PthreadCondT.mk⟩, 1⟩).2.2.2 (by decide)⟩

/-- C2 (code bug): POSIX pthread calls report failure by RETURNING a positive
error number (e.g. EINVAL = 22, EPERM = 1), but check_libc_err classifies
only negative returns as errors, so every one of lock, unlock, wait,
notify_one and notify_all maps a failing pthread call to Ok(()) instead of
Err — contradicting the claim, the spec and the functions own doc comments. -/
theorem spec_C2 (m : SharedMutex) (c : SharedCondvar) (e : Errno) :
    SharedMutex.lock m e 22 = Except.ok ()
    ∧ SharedMutex.unlock m e 1 = Except.ok ()
    ∧ SharedCondvar.wait c m e 22 = Except.ok ()
    ∧ SharedCondvar.notify_one c e 22 = Except.ok ()
    ∧ SharedCondvar.notify_all c e 22 = Except.ok () := by
  refine ⟨?_, ?_, ?_, ?_, ?_⟩ <;>
    simp [SharedMutex.lock, SharedMutex.unlock, SharedCondvar.wait,
      SharedCondvar.notify_one, SharedCondvar.notify_all, check_libc_err]

/-- C3 (code bug): an OS rejection of pthread_mutex_init / pthread_cond_init
(returning EINVAL = 22) is invisible to check_libc_err, so SharedMutex::new
and SharedCondvar::new return Ok instead of the claimed InitializationFailure;
moreover a negative report from the setpshared attribute-configuration step
aborts the process via .expect instead of returning a recoverable Err. -/
theorem spec_C3 :
    SharedMutex.new MmapOutcome.success ⟨0, 0, 0, 0, 22, 0, 0, 0⟩ 1
      = NewOutcome.ok ⟨⟨⟨40⟩, PthreadMutexT.mk⟩, 1⟩
    ∧ SharedCondvar.new MmapOutcome.success ⟨0, 0, 0, 0, 22, 0, 0, 0⟩ 1
      = NewOutcome.ok ⟨⟨⟨48⟩, PthreadCondT.mk⟩, 1⟩
    ∧ SharedMutex.new MmapOutcome.success ⟨0, 0, -1, 22, 0, 0, 0, 0⟩ 1
      = NewOutcome.aborted "cannot set PTHREAD_PROCESS_SHARED" := by
  refine ⟨?_, ?_, ?_⟩ <;> rfl

/-- C7 (code bug): in the creator process, pthread_mutex_destroy or
pthread_cond_destroy reporting failure the POSIX way (returning EBUSY = 16)
does NOT abort: check_libc_err treats the positive return as success and
scope exit completes normally, against the claim that every structure-destroy
failure terminates the process abruptly.  The munmap leg does behave as
claimed: a munmap return of -1 aborts. -/
theorem spec_C7 :
    (SharedMutex.dropGlue 1 0 16 0 0 ⟨⟨⟨40⟩, PthreadMutexT.mk⟩, 1⟩).aborted = false
    ∧ (SharedCondvar.dropGlue 1 0 16 0 0 ⟨⟨⟨48⟩, PthreadCondT.mk⟩, 1⟩).aborted = false
    ∧ (SharedMemoryObject.dropGlue 0 (-1)
        (⟨⟨40⟩, PthreadMutexT.mk⟩ : SharedMemoryObject PthreadMutexT)).aborted = true := by
  refine ⟨?_, ?_, ?_⟩ <;> rfl

/-- C10: check_libc_err(ret) returns Err carrying the ambient last OS error
exactly when ret is strictly less than the default value of its ordered type,
and Ok(ret) otherwise; in particular every strictly positive Int return value
is classified as success. -/
theorem spec_C10 {T : Type} [LinearOrder T] (default : T) (lastError : Errno)
    (ret : T) :
    (check_libc_err default lastError ret = Except.error lastError ↔ ret < default)
    ∧ (¬ ret < default → check_libc_err default lastError ret = Except.ok ret)
    ∧ (∀ r : Int, 0 < r → check_libc_err 0 lastError r = Except.ok r) := by
  refine ⟨⟨?_, ?_⟩, ?_, ?_⟩
  · intro h
    by_contra hlt
    simp [check_libc_err, hlt] at h
  · intro h; simp [check_libc_err, h]
  · intro h; simp [check_libc_err, h]
  · intro r hr; simp [check_libc_err, not_lt.mpr (le_of_lt hr)]

/-- Witness for C10 at concrete inputs: 5 is not below the Int default 0, so
check_libc_err returns Ok(5). -/
theorem spec_C10_witness : check_libc_err (0 : Int) 7 5 = Except.ok 5 :=
  (spec_C10 (0 : Int) 7 5).2.1 (by decide)

/-- C4: if SharedMemoryObject::new(V) succeeds, an immediately following
get() on the returned handle, with no intervening write, returns V in the
creating process. -/
theorem spec_C4 {T : Type} (sizeOfT : Nat) (mm : MmapOutcome) (v : T)
    (o : SharedMemoryObject T)
    (h : SharedMemoryObject.new sizeOfT mm v = Except.ok o) :
    SharedMemoryObject.get o = v := by
  cases mm with
  | success =>
    simp [SharedMemoryObject.new, allocate_shared_memory] at h
    rw [← h]
    rfl
  | failed e =>
    simp [SharedMemoryObject.new, allocate_shared_memory] at h

/-- Witness for C4 at a concrete input: allocating the Int value 42 with a
successful mmap yields a handle whose get() returns 42. -/
theorem spec_C4_witness :
    SharedMemoryObject.get (⟨⟨8⟩, (42 : Int)⟩ : SharedMemoryObject Int) = 42 :=
  spec_C4 8 MmapOutcome.success 42 ⟨⟨8⟩, 42⟩ rfl

/-- C5: SharedMemoryObject::new returns an allocation error carrying the OS
errno if and only if the mmap syscall is rejected, and on success the handle
holds a mapping of exactly size_of::\x3cT\x3e() bytes. -/
theorem spec_C5 {T : Type} (sizeOfT : Nat) (mm : MmapOutcome) (v : T) :
    (∀ e, mm = MmapOutcome.failed e →
      SharedMemoryObject.new sizeOfT mm v = Except.error e)
    ∧ ((∃ e, SharedMemoryObject.new sizeOfT mm v = Except.error e)
        ↔ ∃ e, mm = MmapOutcome.failed e)
    ∧ (∀ o, SharedMemoryObject.new sizeOfT mm v = Except.ok o →
        o.mapping.len = sizeOfT) := by
  cases mm with
  | success =>
    refine ⟨?_, ?_, ?_⟩
    · intro e he; cases he
    · simp [SharedMemoryObject.new, allocate_shared_memory]
    · intro o ho
      simp [SharedMemoryObject.new, allocate_shared_memory] at ho
      rw [← ho]
  | failed e =>
    refine ⟨?_, ?_, ?_⟩
    · intro e2 he
      cases he
      rfl
    · simp [SharedMemoryObject.new, allocate_shared_memory]
    · intro o ho
      simp [SharedMemoryObject.new, allocate_shared_memory] at ho

/-- Witness for C5 at concrete inputs: a rejected mmap with errno 12 (ENOMEM)
surfaces Err(12); a successful allocation of an 8-byte Int records a mapping
of length exactly 8. -/
theorem spec_C5_witness :
    SharedMemoryObject.new 8 (MmapOutcome.failed 12) (42 : Int) = Except.error 12
    ∧ (SharedMemoryObject.mk ⟨8⟩ (42 : Int)).mapping.len = 8 :=
  ⟨(spec_C5 8 (MmapOutcome.failed 12) (42 : Int)).1 12 rfl,
   (spec_C5 8 MmapOutcome.success (42 : Int)).2.2 ⟨⟨8⟩, 42⟩ rfl⟩

/-- C8: scope exit of a SharedMemoryObject handle emits exactly one munmap of
the local mapping and nothing else — in particular it never runs any
payload-specific cleanup of the value stored in the region, whatever the
payload type is. -/
theorem spec_C8 {T : Type} (lastError : Errno) (munmapRet : Int)
    (o : SharedMemoryObject T) :
    (SharedMemoryObject.dropGlue lastError munmapRet o).calls
      = [OSCall.munmapCall o.mapping.len]
    ∧ OSCall.payloadDrop ∉ (SharedMemoryObject.dropGlue lastError munmapRet o).calls := by
  refine ⟨rfl, ?_⟩
  intro hmem
  rw [show (SharedMemoryObject.dropGlue lastError munmapRet o).calls
      = [OSCall.munmapCall o.mapping.len] from rfl] at hmem
  simp at hmem

/-- C9: get() and get_mut() are total accessors of the stored value: get
returns exactly the stored value, the mutable reference reads the stored
value, writing v through it updates the stored value to v while leaving the
mapping untouched, and writing back what was read is the identity; neither
has an error path nor makes any OS call. -/
theorem spec_C9 {T : Type} (o : SharedMemoryObject T) (v : T) :
    SharedMemoryObject.get o = o.value
    ∧ (SharedMemoryObject.get_mut o).1 = o.value
    ∧ ((SharedMemoryObject.get_mut o).2 v).value = v
    ∧ ((SharedMemoryObject.get_mut o).2 v).mapping = o.mapping
    ∧ (SharedMemoryObject.get_mut o).2 (SharedMemoryObject.get o) = o := by
  refine ⟨rfl, rfl, rfl, rfl, ?_⟩
  cases o
  rfl
